import Mathlib

/-!
Shallow embedding of the `string-error` crate (src/src/lib.rs).

The crate exposes two data holders, `StaticStrError` (wrapping a
`&'static str`) and `StringError` (wrapping an owned `String`), together
with three factory functions `static_err`, `new_err` and `into_err`, each
returning a boxed error trait object.  Text of all ownership modes is
modelled as Lean `String`; the boxed trait object `Box<Error>` is
modelled as a sum of the two concrete shapes.
-/

namespace StringErrorCrate

/-- Embeds `struct StaticStrError { error: &'static str }` (lib.rs:29-31). -/
structure StaticStrError where
  error : String
deriving DecidableEq, Repr

/-- Embeds `struct StringError { error: String }` (lib.rs:47-49). -/
structure StringError where
  error : String
deriving DecidableEq, Repr

/-- Embeds `impl Error for StaticStrError { fn description(&self) -> &str { self.error } }`
(lib.rs:33-37). -/
def StaticStrError.description (s : StaticStrError) : String := s.error

/-- Embeds `impl fmt::Display for StaticStrError`: `f.write_str(self.error)`
(lib.rs:39-43); the rendered output is the stored text unchanged. -/
def StaticStrError.display (s : StaticStrError) : String := s.error

/-- Embeds `impl Error for StringError { fn description(&self) -> &str { &self.error } }`
(lib.rs:51-55). -/
def StringError.description (s : StringError) : String := s.error

/-- Embeds `impl fmt::Display for StringError`: `write!(f, "Error: {}", self.error)`
(lib.rs:57-61); the rendered output is the label `"Error: "` followed by the
stored text. -/
def StringError.display (s : StringError) : String := "Error: " ++ s.error

/-- Embeds the type-erased `Box<Error>` value returned by the three factory
functions: it is one of the two concrete shapes defined in the crate. -/
inductive ErrValue where
  | staticE (e : StaticStrError)
  | stringE (e : StringError)
deriving DecidableEq, Repr

/-- Virtual dispatch of `description` on the boxed trait object. -/
def ErrValue.description : ErrValue → String
  | .staticE e => e.description
  | .stringE e => e.description

/-- Virtual dispatch of `Display` rendering on the boxed trait object. -/
def ErrValue.display : ErrValue → String
  | .staticE e => e.display
  | .stringE e => e.display

/-- Embeds `cause`: neither `impl Error` block overrides the trait default
`fn cause(&self) -> Option<&Error> { None }`, so both shapes report `None`. -/
def ErrValue.cause : ErrValue → Option ErrValue
  | _ => none

/-- Embeds `String::from(e)` used by `new_err` (lib.rs:91): copying a borrowed
`&str` into an owned `String` yields text with the same content. -/
def stringFrom (e : String) : String := e

/-- Embeds `pub fn static_err(e: &'static str) -> Box<Error>`
(lib.rs:73-75): `Box::new(StaticStrError { error: e })`. -/
def static_err (e : String) : ErrValue :=
  ErrValue.staticE { error := e }

/-- Embeds `pub fn new_err(e: &str) -> Box<Error>` (lib.rs:90-92):
`Box::new(StringError { error: String::from(e) })`. -/
def new_err (e : String) : ErrValue :=
  ErrValue.stringE { error := stringFrom e }

/-- Embeds `pub fn into_err(e: String) -> Box<Error>` (lib.rs:106-108):
`Box::new(StringError { error: e })`. -/
def into_err (e : String) : ErrValue :=
  ErrValue.stringE { error := e }

/-- Models one observer call on an immutable error value: the call returns the
rendered string together with the value as it stands after the call.  The
structs have no mutating operations, so the value is returned unchanged. -/
def ErrValue.descriptionCall (v : ErrValue) : String × ErrValue :=
  (v.description, v)

/-- Models one `Display` rendering call on an immutable error value, returning
the rendered string and the value after the call. -/
def ErrValue.displayCall (v : ErrValue) : String × ErrValue :=
  (v.display, v)

/-- Performs `n` successive observer calls on an error value, threading the
value state through the calls and collecting the returned strings. -/
def repeatedCalls (f : ErrValue → String × ErrValue) (v : ErrValue) : Nat → List String
  | 0 => []
  | n + 1 =>
    let r := f v
    r.1 :: repeatedCalls f r.2 n

end StringErrorCrate

namespace StringErrorCrate

/-- C1: for every text T, the error value returned by `new_err` and the error
value returned by `into_err` both render via `display` as the literal label
"Error: " followed by T exactly. -/
theorem C1_new_into_err_display (T : String) :
    (new_err T).display = "Error: " ++ T ∧ (into_err T).display = "Error: " ++ T := by
  constructor <;> rfl

/-- C2: for every text T, the error value returned by `static_err` renders via
`display` as T exactly, with no prefixed label or other modification. -/
theorem C2_static_err_display (T : String) :
    (static_err T).display = T := rfl

/-- C3: for every text T, `(static_err T).description` returns the stored
text T verbatim, with no modification. -/
theorem C3_static_err_description (T : String) :
    (static_err T).description = T := rfl

/-- C4: for every text T, `(new_err T).description` returns T exactly; the
stored text of the constructed value is the copy `stringFrom T`, whose content
equals the input T. -/
theorem C4_new_err_description (T : String) :
    (new_err T).description = T ∧ new_err T = ErrValue.stringE { error := stringFrom T } := by
  constructor <;> rfl

/-- C5: for every owned text T, `(into_err T).description` returns T exactly;
the constructed value holds that same text. -/
theorem C5_into_err_description (T : String) :
    (into_err T).description = T ∧ into_err T = ErrValue.stringE { error := T } := by
  constructor <;> rfl

/-- C6: for every text T, `cause` on the error value returned by any of the
three factory operations reports none: the produced values never reference
another error. -/
theorem C6_cause_none (T : String) :
    (static_err T).cause = none ∧ (new_err T).cause = none ∧ (into_err T).cause = none := by
  refine ⟨rfl, rfl, rfl⟩

/-- C7: for every error value produced by any of the three factory operations,
the stored textual content never changes after construction: a sequence of n
repeated `description` or `display` calls on the same value yields the
identical result every time. -/
theorem C7_repeated_calls_identical (T : String) (n : Nat) :
    repeatedCalls ErrValue.descriptionCall (static_err T) n
        = List.replicate n (static_err T).description
    ∧ repeatedCalls ErrValue.displayCall (static_err T) n
        = List.replicate n (static_err T).display
    ∧ repeatedCalls ErrValue.descriptionCall (new_err T) n
        = List.replicate n (new_err T).description
    ∧ repeatedCalls ErrValue.displayCall (new_err T) n
        = List.replicate n (new_err T).display
    ∧ repeatedCalls ErrValue.descriptionCall (into_err T) n
        = List.replicate n (into_err T).description
    ∧ repeatedCalls ErrValue.displayCall (into_err T) n
        = List.replicate n (into_err T).display := by
  have key : ∀ (f : ErrValue → String × ErrValue) (v : ErrValue),
      (∀ w, (f w).2 = w) → ∀ m, repeatedCalls f v m = List.replicate m (f v).1 := by
    intro f v hfix m
    induction m generalizing v with
    | zero => rfl
    | succ k ih =>
      simp only [repeatedCalls, List.replicate, hfix v]
      rw [ih v]
  have hdesc : ∀ w : ErrValue, (ErrValue.descriptionCall w).2 = w := fun _ => rfl
  have hdisp : ∀ w : ErrValue, (ErrValue.displayCall w).2 = w := fun _ => rfl
  exact ⟨key _ _ hdesc n, key _ _ hdisp n, key _ _ hdesc n,
    key _ _ hdisp n, key _ _ hdesc n, key _ _ hdisp n⟩

/-- C8: for every input text, each of the three factory operations is a total
function that returns an error value (one of the two concrete shapes):
construction has no error conditions and cannot fail. -/
theorem C8_factories_total (T : String) :
    static_err T = ErrValue.staticE { error := T }
    ∧ new_err T = ErrValue.stringE { error := stringFrom T }
    ∧ into_err T = ErrValue.stringE { error := T } := by
  refine ⟨rfl, rfl, rfl⟩

/-- C9: for every text T, `new_err T` and `into_err` applied to an owned copy
of T produce observationally equivalent error values: equal `description`,
equal `display` output, and equal (absent) `cause`, since both construct the
same `StringError` shape with the same stored text. -/
theorem C9_new_into_equivalent (T : String) :
    (new_err T).description = (into_err (stringFrom T)).description
    ∧ (new_err T).display = (into_err (stringFrom T)).display
    ∧ (new_err T).cause = (into_err (stringFrom T)).cause
    ∧ new_err T = into_err (stringFrom T) := by
  refine ⟨rfl, rfl, rfl, rfl⟩

/-- C10: for the empty input text "", all three factory operations still
succeed and `description` returns ""; however `new_err ""` and `into_err ""`
render via `display` as the non-empty text "Error: " while `static_err ""`
renders as the empty text. -/
theorem C10_empty_text :
    (static_err "").description = ""
    ∧ (new_err "").description = ""
    ∧ (into_err "").description = ""
    ∧ (new_err "").display = "Error: "
    ∧ (new_err "").display ≠ ""
    ∧ (into_err "").display = "Error: "
    ∧ (into_err "").display ≠ ""
    ∧ (static_err "").display = "" := by
  refine ⟨rfl, rfl, rfl, rfl, by decide, rfl, by decide, rfl⟩

end StringErrorCrate
